import Mathlib

/-!
Shallow embedding of the observability core of the `sample-api` service
(`src/apps/sample-api/app`): the health/readiness evaluation
(`app/routes/health.py`), the request-metrics middleware
(`app/middleware.py`), the demo endpoints (`app/routes/demo.py`), the
settings object (`app/config.py`) and the metrics registry
(`app/metrics.py`).  Environment readings that the Python code obtains
from `psutil` (memory/disk utilisation percentages) and from the random
number generator are passed to the embedded functions as explicit
arguments; everything else follows the source line by line.
-/

namespace SampleApi

/-! ### `app/models/health.py` -/

/-- `HealthStatus` enum: `OK = "ok"`, `ERROR = "error"`. -/
inductive HealthStatus where
  | ok
  | error
deriving DecidableEq, Repr

/-- `ComponentHealth` pydantic model: `name`, `status`, optional `details`. -/
structure ComponentHealth where
  name : String
  status : HealthStatus
  details : Option String
deriving DecidableEq, Repr

/-- `HealthCheck` pydantic model: fields `status` and `components`
(`components` defaults to the empty list). -/
structure HealthCheck where
  status : HealthStatus
  components : List ComponentHealth := []
deriving DecidableEq, Repr

/-- The serialized field names of the `HealthCheck` model, in declaration
order (from `app/models/health.py`, lines 20-23). -/
def healthCheckFields : List String := ["status", "components"]

/-- `ReadinessCheck` pydantic model: same shape as `HealthCheck`. -/
structure ReadinessCheck where
  status : HealthStatus
  components : List ComponentHealth := []
deriving DecidableEq, Repr

/-! ### `app/config.py` -/

/-- The `Settings` object (`app/config.py`), restricted to the fields the
claims touch, with the source's default values.  `ERROR_RATE` is a Python
float; 0.0 and the claim-relevant comparisons are exact, so it is embedded
as a rational. -/
structure Settings where
  APP_NAME : String := "Sample API"
  APP_ENV : String := "development"
  DEBUG : Bool := false
  VERSION : String := "1.0.0"
  ENABLE_SLOW_ENDPOINT : Bool := true
  SLOW_ENDPOINT_DELAY : Int := 5
  ERROR_RATE : ℚ := 0
deriving DecidableEq, Repr

/-- `settings = Settings()` with no environment overrides: every field at
its declared default. -/
def defaultSettings : Settings := {}

/-! ### `app/routes/health.py` — the individual checks -/

/-- The `{"healthy": ..., "message": ...}` dict produced by each check
function (the `details` sub-dict is not folded into any claim). -/
structure CheckResult where
  healthy : Bool
  message : String
deriving DecidableEq, Repr

/-- `check_memory` (`health.py` lines 66-78): healthy iff
`psutil.virtual_memory().percent < 90`; the percent reading is the
argument. -/
def check_memory (memoryPercent : ℚ) : CheckResult :=
  { healthy := decide (memoryPercent < 90)
    message := "Memory usage: " ++ toString memoryPercent ++ "%" }

/-- `check_disk` (`health.py` lines 81-89): healthy iff
`psutil.disk_usage("/").percent < 90`; the percent reading is the
argument. -/
def check_disk (diskPercent : ℚ) : CheckResult :=
  { healthy := decide (diskPercent < 90)
    message := "Disk usage: " ++ toString diskPercent ++ "%" }

/-- `check_configuration` (`health.py` lines 92-101): required vars
`["APP_NAME", "APP_ENV", "VERSION"]`; a var is missing when
`not getattr(settings, var, None)` — for these `str` fields that means the
empty string; healthy iff no var is missing. -/
def check_configuration (s : Settings) : CheckResult :=
  let required : List (String × String) :=
    [("APP_NAME", s.APP_NAME), ("APP_ENV", s.APP_ENV), ("VERSION", s.VERSION)]
  let missing := (required.filter (fun p => p.2 = "")).map (fun p => p.1)
  { healthy := decide (missing.length = 0)
    message :=
      if missing.length = 0 then "Configuration OK"
      else "Missing: " ++ toString missing }

/-! ### `app/routes/health.py` — the endpoints -/

/-- An HTTP status code paired with the readiness body. -/
structure ReadinessResponse where
  statusCode : Nat
  body : ReadinessCheck
deriving DecidableEq, Repr

/-- The `readiness` endpoint (`health.py` lines 22-53) as a function of
the three check results it builds its `checks` dict from: the FastAPI
`Response` starts at status 200; if not all checks are healthy the status
becomes 503 and the overall status `ERROR`; the body lists one
`ComponentHealth` per check, in dict order `memory, disk, config`, with
`status` OK iff the check is healthy and `details` its message. -/
def readinessOf (memory disk config : CheckResult) : ReadinessResponse :=
  let checks : List (String × CheckResult) :=
    [("memory", memory), ("disk", disk), ("config", config)]
  let is_ready := checks.all (fun c => c.2.healthy)
  let overall_status := if is_ready then HealthStatus.ok else HealthStatus.error
  let statusCode := if is_ready then 200 else 503
  let component_healths := checks.map (fun c =>
    { name := c.1
      status := if c.2.healthy then HealthStatus.ok else HealthStatus.error
      details := some c.2.message : ComponentHealth })
  { statusCode := statusCode
    body := { status := overall_status, components := component_healths } }

/-- The system state the health module reads: the two `psutil` percent
readings and the process settings. -/
structure SystemState where
  memoryPercent : ℚ
  diskPercent : ℚ
  settings : Settings
deriving DecidableEq, Repr

/-- `readiness` on a system state: evaluates the three checks fresh and
aggregates them. -/
def readiness (sys : SystemState) : ReadinessResponse :=
  readinessOf (check_memory sys.memoryPercent) (check_disk sys.diskPercent)
    (check_configuration sys.settings)

/-- The `liveness` endpoint (`health.py` lines 13-19): returns
`HealthCheck(status=HealthStatus.OK)` with status code 200, reading
nothing from the system state. -/
def liveness (_sys : SystemState) : Nat × HealthCheck :=
  (200, { status := HealthStatus.ok })

/-- The `startup` endpoint (`health.py` lines 56-63): identical body to
`liveness`, status 200, reads nothing. -/
def startup (_sys : SystemState) : Nat × HealthCheck :=
  (200, { status := HealthStatus.ok })

/-- Modelled from the spec: the response shape the spec's interface table
asserts for `/health/live` and `/health/startup`, namely
`{status, timestamp, version}`. -/
def specProbeBodyFields : List String := ["status", "timestamp", "version"]

/-! ### Python `int(...)` on strings

`app/middleware.py` lines 30-31 apply Python's `int` builtin to the value
of `headers.get("content-length", 0)`.  `int` on a string strips
surrounding whitespace, accepts an optional sign, then requires a
non-empty digit run in which single underscores may separate digits;
anything else raises `ValueError` (embedded as `none`). -/

/-- Digit run with single underscores allowed only between digits.
`prevDigit` records whether the previous character was a digit (so an
underscore is legal and the run may end); `acc` is the value so far. -/
def pyDigitsAux (prevDigit : Bool) (acc : Nat) : List Char → Option Nat
  | [] => if prevDigit then some acc else none
  | c :: cs =>
    if c = '_' then
      if prevDigit then pyDigitsAux false acc cs else none
    else if c.isDigit then
      pyDigitsAux true (10 * acc + (c.toNat - 48)) cs
    else none

/-- Surrounding-whitespace stripping, as `int` performs on its string
argument before parsing. -/
def pyStrip (cs : List Char) : List Char :=
  ((cs.dropWhile Char.isWhitespace).reverse.dropWhile Char.isWhitespace).reverse

/-- Python `int(s)` for a string `s`: `some n` on success, `none` when
`int` would raise `ValueError`. -/
def pyInt (s : String) : Option Int :=
  match pyStrip s.data with
  | '+' :: rest => (pyDigitsAux false 0 rest).map Int.ofNat
  | '-' :: rest => (pyDigitsAux false 0 rest).map (fun n => -(n : Int))
  | rest => (pyDigitsAux false 0 rest).map Int.ofNat

/-- `int(headers.get("content-length", 0))` (`middleware.py` lines
30-31): the header value, or the integer 0 when the header is absent;
`some` on success, `none` when `int` raises `ValueError`. -/
def headerSize (h : Option String) : Option Int :=
  match h with
  | none => some 0
  | some s => pyInt s

/-! ### `app/middleware.py` — RequestMetricsMiddleware.dispatch -/

/-- A request scope: method, path, and the request's `content-length`
header (if any).  Route matching consumes the scope opaquely, through
each route's `matches` predicate. -/
structure Scope where
  method : String
  rawPath : String
  contentLength : Option String

/-- A Starlette route as the middleware sees it: its `path` template and
whether `route.matches(scope)` returns `Match.FULL` on a given scope. -/
structure Route where
  path : String
  matchesFull : Scope → Bool

/-- The route-template resolution loop (`middleware.py` lines 19-25):
`endpoint = "unknown"`, then the first route whose `matches` is
`Match.FULL` supplies its `path` and the loop breaks. -/
def resolveEndpoint (routes : List Route) (scope : Scope) : String :=
  match routes with
  | [] => "unknown"
  | r :: rest => if r.matchesFull scope then r.path else resolveEndpoint rest scope

/-- One `track_request` call (`metrics.py` lines 67-73): the labels and
observations folded into the registry for one request. -/
structure RequestRecord where
  method : String
  endpoint : String
  status : Nat
  requestSize : Int
  responseSize : Int
deriving DecidableEq, Repr

/-- The mutable metrics state the middleware touches: the
`active_requests` gauge value and the sequence of `track_request` calls
made so far (oldest first). -/
structure MetricsState where
  active : Int
  requests : List RequestRecord
deriving DecidableEq, Repr

/-- What `await call_next(request)` produces: either a response (with a
status code and a `content-length` header) — which is also what the inner
exception middleware yields for an `HTTPException` — or an exception that
propagates out of `call_next` (an unhandled, non-`HTTPException` fault in
the handler). -/
inductive HandlerOutcome where
  | response (status : Nat) (contentLength : Option String)
  | raised

/-- `RequestMetricsMiddleware.dispatch` (`middleware.py` lines 13-43),
step by step: increment `active_requests`; resolve the endpoint template;
await `call_next` — if it raises, the exception propagates and nothing
after it runs (result `none`); otherwise parse both `content-length`
headers with `int` — if either parse raises `ValueError`, that exception
propagates (result `none`); otherwise `track_request` and decrement
`active_requests`, returning the response status. -/
def dispatch (routes : List Route) (scope : Scope) (handler : HandlerOutcome)
    (st : MetricsState) : MetricsState × Option Nat :=
  let st1 : MetricsState := { st with active := st.active + 1 }
  let endpoint := resolveEndpoint routes scope
  match handler with
  | .raised => (st1, none)
  | .response status respCL =>
    match headerSize scope.contentLength, headerSize respCL with
    | some request_size, some response_size =>
      let st2 : MetricsState :=
        { st1 with requests := st1.requests ++
            [{ method := scope.method, endpoint := endpoint, status := status
               requestSize := request_size, responseSize := response_size }] }
      ({ st2 with active := st2.active - 1 }, some status)
    | _, _ => (st1, none)

/-! ### `app/routes/demo.py` — the error endpoint -/

/-- The observable outcome of one `error_endpoint` call: the HTTP status
(500 via `HTTPException`, otherwise 200 with the success body), the
response message, the `error_rate` value the handler computed, and
whether `track_error("simulated_error")` incremented the error counter. -/
structure DemoErrorOutcome where
  status : Nat
  message : String
  effectiveRate : ℚ
  errorCounterInc : Bool
deriving DecidableEq, Repr

/-- `error_endpoint` (`demo.py` lines 39-56) as a function of the query
parameter `rate`, the settings, and the value `draw` returned by
`random.random()` (a float in `[0, 1)`):
`error_rate = rate if rate is not None else settings.ERROR_RATE`; if
`random.random() * 100 < error_rate` the error counter is incremented and
`HTTPException(500)` raised, else the success body
`{"message": "Success", "error_rate": error_rate}` is returned. -/
def error_endpoint (s : Settings) (rate : Option ℚ) (draw : ℚ) : DemoErrorOutcome :=
  let error_rate := match rate with
    | some r => r
    | none => s.ERROR_RATE
  if draw * 100 < error_rate then
    { status := 500, message := "Simulated error"
      effectiveRate := error_rate, errorCounterInc := true }
  else
    { status := 200, message := "Success"
      effectiveRate := error_rate, errorCounterInc := false }

/-! ### `app/routes/demo.py` — query-parameter validation

The four demo endpoints declare FastAPI bounds on their query
parameters (`demo.py`): `slow`'s `delay` is `Query(None, ge=0, le=30)`,
`error`'s `rate` is `Query(None, ge=0, le=100)`, `cpu`'s `duration` is
`Query(1, ge=1, le=10)` and `memory`'s `size_mb` is
`Query(10, ge=1, le=100)`. -/

/-- A supplied demo query parameter (the optional ones carry `Option`,
matching the `Optional[...]` declarations in the source). -/
inductive DemoParam where
  | delay (v : Option Int)
  | rate (v : Option ℚ)
  | duration (v : Int)
  | sizeMb (v : Int)

/-- Whether a parameter satisfies the `ge`/`le` bounds declared in its
`Query(...)` annotation (`demo.py` lines 14-16, 40-43, 59-62, 79-81);
an omitted optional parameter is valid. -/
def paramValid : DemoParam → Bool
  | .delay none => true
  | .delay (some v) => decide (0 ≤ v ∧ v ≤ 30)
  | .rate none => true
  | .rate (some q) => decide (0 ≤ q ∧ q ≤ 100)
  | .duration v => decide (1 ≤ v ∧ v ≤ 10)
  | .sizeMb v => decide (1 ≤ v ∧ v ≤ 100)

/-- The outcome of routing a demo request: whether the handler body ran
and the HTTP status returned. -/
structure DemoCall where
  handlerRan : Bool
  status : Nat
deriving DecidableEq, Repr

/-- Modelled from the spec: FastAPI's enforcement of the declared
`Query(ge=..., le=...)` constraints, which is framework code outside this
repository — a request whose query parameter violates its declared
bounds is rejected with the client-error status 422 before any handler
logic runs; otherwise the handler runs and supplies the status. -/
def demoDispatch (p : DemoParam) (handler : Unit → Nat) : DemoCall :=
  if paramValid p then { handlerRan := true, status := handler () }
  else { handlerRan := false, status := 422 }

/-- A client-error status in the 4xx range. -/
def isClientError (status : Nat) : Bool := decide (400 ≤ status ∧ status < 500)

/-! ### `app/metrics.py` — info records -/

/-- The `VersionInfo` pydantic model (`app/models/info.py`). -/
structure VersionInfo where
  version : String
  build_number : Option String := none
  git_commit : Option String := none
  git_branch : Option String := none
  environment : Option String := none
deriving DecidableEq, Repr

/-- The registry's info-record state: an association of info-metric name
to its current key→value mapping, in insertion order. -/
abbrev InfoStore : Type := List (String × List (String × String))

/-- Modelled from the spec: `record_info(name, mapping)` — the
`prometheus_client` `Info.info` call used at `metrics.py` lines 60-64,
whose implementation is library code outside this repository — replaces
the single info record for `name` with the provided mapping (no
accumulation; last-write-wins). -/
def record_info (st : InfoStore) (name : String) (m : List (String × String)) :
    InfoStore :=
  (st.filter (fun p => p.1 ≠ name)) ++ [(name, m)]

/-- A fold of successive `record_info` calls for one name. -/
def recordInfoAll (st : InfoStore) (name : String)
    (ms : List (List (String × String))) : InfoStore :=
  ms.foldl (fun s m => record_info s name m) st

/-- The info records exposition produces for a store: one rendered series
per stored record, in store order (one `name_info{labels} 1` line each in
the Prometheus text format). -/
def exportInfo (st : InfoStore) : List (String × List (String × String)) := st

/-- `MetricsRegistry.initialize` (`metrics.py` lines 58-65): records the
`app_version` info mapping built from the process `version_info`, with
`or 'unknown'` defaults for the optional fields. -/
def registryInit (st : InfoStore) (vi : VersionInfo) : InfoStore :=
  record_info st "app_version"
    [("version", vi.version),
     ("build", vi.build_number.getD "unknown"),
     ("commit", vi.git_commit.getD "unknown")]

/-! ## Theorems -/

/-- C1: at the failing input — a handler fault that propagates out of
`call_next`, i.e. an exception with no response object — `dispatch`
leaves the `active_requests` gauge one above its pre-request value,
records no request at all (no synthetic failure status), and re-raises:
the increment on entry is *not* paired with a decrement on the
handler-failure path, because the source has no `try/finally` around
`await call_next(request)`. -/
theorem C1_dispatch_unbalanced_on_handler_exception
    (routes : List Route) (scope : Scope) (st : MetricsState) :
    (dispatch routes scope HandlerOutcome.raised st).1.active = st.active + 1
    ∧ (dispatch routes scope HandlerOutcome.raised st).1.requests = st.requests
    ∧ (dispatch routes scope HandlerOutcome.raised st).2 = none := by
  refine ⟨rfl, rfl, rfl⟩

/-- C2: for every value of the random draw in `[0, 1)`,
`/demo/error?rate=0` returns the success body (status 200, no
error-counter increment) and `/demo/error?rate=100` returns status 500
and increments the error counter: `random.random() * 100 < 0` is never
true and `random.random() * 100 < 100` always is. -/
theorem C2_error_rate_boundaries (s : Settings) (draw : ℚ)
    (h0 : 0 ≤ draw) (h1 : draw < 1) :
    error_endpoint s (some 0) draw =
      { status := 200, message := "Success", effectiveRate := 0, errorCounterInc := false }
    ∧ (error_endpoint s (some 100) draw).status = 500
    ∧ (error_endpoint s (some 100) draw).errorCounterInc = true := by
  have hge : ¬ (draw * 100 < 0) := by nlinarith
  have hlt : draw * 100 < 100 := by nlinarith
  refine ⟨?_, ?_, ?_⟩ <;> simp [error_endpoint, hge, hlt]

/-- Witness for C2 at the concrete draw 0. -/
theorem C2_error_rate_boundaries_witness :
    error_endpoint defaultSettings (some 0) 0 =
      { status := 200, message := "Success", effectiveRate := 0, errorCounterInc := false }
    ∧ (error_endpoint defaultSettings (some 100) 0).status = 500
    ∧ (error_endpoint defaultSettings (some 100) 0).errorCounterInc = true :=
  C2_error_rate_boundaries defaultSettings 0 (by norm_num) (by norm_num)

/-- C4 counterexample: for the concrete header value `"x"` — present but
unparseable as an integer — size extraction does not yield 0; `int("x")`
raises `ValueError` (embedded as `none`), falsifying "uses 0 … when its
value is unparseable" and "size extraction never fails". -/
theorem C4_unparseable_header_counterexample :
    ¬ (headerSize (some "x") = some 0) := by decide

/-- C4 amended: the tracker reads the byte sizes from the
`content-length` headers and uses 0 when the header is absent; a present
header value is parsed with Python `int`, and a value unparseable as an
integer makes extraction fail with `ValueError` instead of defaulting
to 0. -/
theorem C4_header_size_amended :
    headerSize none = some 0
    ∧ (∀ s : String, headerSize (some s) = pyInt s)
    ∧ headerSize (some " 42 ") = some 42
    ∧ headerSize (some "x") = none :=
  ⟨rfl, fun _ => rfl, by decide, by decide⟩

/-- C7: the memory check is healthy iff the memory utilisation percent is
strictly below 90; the disk check is healthy iff the root-filesystem
percent is strictly below 90; the configuration check is healthy iff
`APP_NAME`, `APP_ENV` and `VERSION` are all non-empty. -/
theorem C7_individual_check_semantics (mp dp : ℚ) (s : Settings) :
    ((check_memory mp).healthy = true ↔ mp < 90)
    ∧ ((check_disk dp).healthy = true ↔ dp < 90)
    ∧ ((check_configuration s).healthy = true ↔
        (s.APP_NAME ≠ "" ∧ s.APP_ENV ≠ "" ∧ s.VERSION ≠ "")) := by
  refine ⟨by simp [check_memory], by simp [check_disk], ?_⟩
  by_cases h1 : s.APP_NAME = "" <;> by_cases h2 : s.APP_ENV = "" <;>
    by_cases h3 : s.VERSION = "" <;>
    simp [check_configuration, List.filter_cons, h1, h2, h3]

/-- C8 counterexample: the probe body is the `HealthCheck` model, whose
serialized fields are `status` and `components` — not the
`{status, timestamp, version}` shape the claim asserts; in particular
neither `timestamp` nor `version` is among the body's fields. -/
theorem C8_body_shape_counterexample :
    healthCheckFields ≠ specProbeBodyFields
    ∧ ¬ ("timestamp" ∈ healthCheckFields)
    ∧ ¬ ("version" ∈ healthCheckFields) := by
  refine ⟨by decide, by decide, by decide⟩

/-- C8 amended: `/health/live` and `/health/startup` always return status
200 with the `HealthCheck` body `{status: ok, components: []}` (fields
`status` and `components`, not `{status, timestamp, version}`),
unconditionally under every system state: they read nothing from the
memory, disk or configuration state, so their result is independent of
the readiness check outcomes. -/
theorem C8_probes_unconditional (sys sys' : SystemState) :
    liveness sys = (200, { status := HealthStatus.ok, components := [] })
    ∧ startup sys = (200, { status := HealthStatus.ok, components := [] })
    ∧ liveness sys = liveness sys'
    ∧ startup sys = startup sys'
    ∧ healthCheckFields = ["status", "components"] :=
  ⟨rfl, rfl, rfl, rfl, rfl⟩

/-- C10: a `/demo/error` request that omits `rate` uses
`settings.ERROR_RATE` as the effective error rate; its declared default
is `0.0`, so under the default configuration the request never returns
500 and always yields the success body with `error_rate = 0.0`, for
every value of the random draw. -/
theorem C10_default_error_rate (draw : ℚ) (h0 : 0 ≤ draw) :
    error_endpoint defaultSettings none draw =
      { status := 200, message := "Success", effectiveRate := 0, errorCounterInc := false }
    ∧ defaultSettings.ERROR_RATE = 0
    ∧ (∀ (s : Settings) (d : ℚ),
        (error_endpoint s none d).effectiveRate = s.ERROR_RATE) := by
  have hge : ¬ (draw * 100 < (0 : ℚ)) := by nlinarith
  refine ⟨?_, rfl, ?_⟩
  · simp [error_endpoint, defaultSettings, hge]
  · intro s d
    rcases lt_or_ge (d * 100) s.ERROR_RATE with h | h
    · simp [error_endpoint, h]
    · simp [error_endpoint, not_lt.mpr h]

/-- C3: the readiness endpoint returns 503 with overall status `error`
iff at least one of the memory, disk and config checks is unhealthy,
returns 200 with overall status `ok` otherwise, and its body carries
exactly the three components `memory, disk, config`, each `ok` iff its
check is healthy with the check's message as details. -/
theorem C3_readiness_aggregation (m d c : CheckResult) :
    (((readinessOf m d c).statusCode = 503
        ∧ (readinessOf m d c).body.status = HealthStatus.error)
      ↔ (m.healthy = false ∨ d.healthy = false ∨ c.healthy = false))
    ∧ (((readinessOf m d c).statusCode = 200
        ∧ (readinessOf m d c).body.status = HealthStatus.ok)
      ↔ (m.healthy = true ∧ d.healthy = true ∧ c.healthy = true))
    ∧ (readinessOf m d c).body.components =
        [{ name := "memory",
           status := if m.healthy then HealthStatus.ok else HealthStatus.error,
           details := some m.message },
         { name := "disk",
           status := if d.healthy then HealthStatus.ok else HealthStatus.error,
           details := some d.message },
         { name := "config",
           status := if c.healthy then HealthStatus.ok else HealthStatus.error,
           details := some c.message }] := by
  obtain ⟨mh, mm⟩ := m
  obtain ⟨dh, dm⟩ := d
  obtain ⟨ch, cm⟩ := c
  cases mh <;> cases dh <;> cases ch <;> simp [readinessOf]

/-- C5: a demo query parameter outside its declared bounds — `delay`
outside `[0, 30]`, `rate` outside `[0, 100]`, `duration` outside
`[1, 10]`, `size_mb` outside `[1, 100]` — is rejected with the
client-error status 422 and the handler body never runs. -/
theorem C5_out_of_bounds_rejected (handler : Unit → Nat) :
    (∀ v : Int, (v < 0 ∨ 30 < v) →
      demoDispatch (.delay (some v)) handler = { handlerRan := false, status := 422 })
    ∧ (∀ q : ℚ, (q < 0 ∨ 100 < q) →
      demoDispatch (.rate (some q)) handler = { handlerRan := false, status := 422 })
    ∧ (∀ v : Int, (v < 1 ∨ 10 < v) →
      demoDispatch (.duration v) handler = { handlerRan := false, status := 422 })
    ∧ (∀ v : Int, (v < 1 ∨ 100 < v) →
      demoDispatch (.sizeMb v) handler = { handlerRan := false, status := 422 })
    ∧ isClientError 422 = true := by
  refine ⟨?_, ?_, ?_, ?_, by decide⟩
  · intro v h
    have hp : paramValid (.delay (some v)) = false := by
      simp only [paramValid, decide_eq_false_iff_not]
      rcases h with h | h <;> omega
    simp [demoDispatch, hp]
  · intro q h
    have hp : paramValid (.rate (some q)) = false := by
      simp only [paramValid, decide_eq_false_iff_not]
      rintro ⟨hq1, hq2⟩
      rcases h with h | h <;> linarith
    simp [demoDispatch, hp]
  · intro v h
    have hp : paramValid (.duration v) = false := by
      simp only [paramValid, decide_eq_false_iff_not]
      rcases h with h | h <;> omega
    simp [demoDispatch, hp]
  · intro v h
    have hp : paramValid (.sizeMb v) = false := by
      simp only [paramValid, decide_eq_false_iff_not]
      rcases h with h | h <;> omega
    simp [demoDispatch, hp]

/-- Witness for C5 at the concrete request `/demo/cpu?duration=999`. -/
theorem C5_out_of_bounds_rejected_witness :
    ((999 : Int) < 1 ∨ 10 < (999 : Int))
    ∧ demoDispatch (.duration 999) (fun _ => 200) = { handlerRan := false, status := 422 }
    ∧ isClientError 422 = true :=
  ⟨Or.inr (by norm_num),
   (C5_out_of_bounds_rejected (fun _ => 200)).2.2.1 999 (Or.inr (by norm_num)),
   (C5_out_of_bounds_rejected (fun _ => 200)).2.2.2.2⟩

/-- When no route matches the scope the loop leaves `endpoint` at
`"unknown"`. -/
theorem resolveEndpoint_eq_unknown (routes : List Route) (scope : Scope)
    (h : ∀ r ∈ routes, r.matchesFull scope = false) :
    resolveEndpoint routes scope = "unknown" := by
  induction routes with
  | nil => rfl
  | cons r rest ih =>
    have hr := h r (by simp)
    have ih' := ih (fun p hp => h p (by simp [hp]))
    simp [resolveEndpoint, hr, ih']

/-- The loop yields the `path` of the first fully-matching route. -/
theorem resolveEndpoint_first (scope : Scope) (pre : List Route) (r : Route)
    (post : List Route) (hpre : ∀ p ∈ pre, p.matchesFull scope = false)
    (hr : r.matchesFull scope = true) :
    resolveEndpoint (pre ++ r :: post) scope = r.path := by
  induction pre with
  | nil => simp [resolveEndpoint, hr]
  | cons p pre' ih =>
    have hp := hpre p (by simp)
    have ih' := ih (fun q hq => hpre q (by simp [hq]))
    simp [resolveEndpoint, hp, ih']

/-- C6: the endpoint label folded into the request metrics is the `path`
template of the first route in the application's route table that fully
matches the scope — `"unknown"` when no route matches — and the record
`track_request` receives carries exactly that label, never the literal
request path. -/
theorem C6_endpoint_template_label (routes : List Route) (scope : Scope) :
    ((∀ r ∈ routes, r.matchesFull scope = false) →
      resolveEndpoint routes scope = "unknown")
    ∧ (∀ (pre : List Route) (r : Route) (post : List Route),
        routes = pre ++ r :: post →
        (∀ p ∈ pre, p.matchesFull scope = false) →
        r.matchesFull scope = true →
        resolveEndpoint routes scope = r.path)
    ∧ (∀ (st : MetricsState) (status : Nat) (respCL : Option String)
        (reqS respS : Int),
        headerSize scope.contentLength = some reqS →
        headerSize respCL = some respS →
        (dispatch routes scope (HandlerOutcome.response status respCL) st).1.requests
          = st.requests ++
            [{ method := scope.method, endpoint := resolveEndpoint routes scope,
               status := status, requestSize := reqS, responseSize := respS }]) := by
  refine ⟨fun h => resolveEndpoint_eq_unknown routes scope h, ?_, ?_⟩
  · rintro pre r post rfl hpre hr
    exact resolveEndpoint_first scope pre r post hpre hr
  · intro st status respCL reqS respS h1 h2
    simp [dispatch, h1, h2]

/-- Witness for C6: a two-route table whose second route is the first
full match; the resolved label is its template. -/
theorem C6_endpoint_template_label_witness :
    resolveEndpoint
      [{ path := "/api/info", matchesFull := fun _ => false },
       { path := "/demo/slow", matchesFull := fun _ => true }]
      { method := "GET", rawPath := "/demo/slow?delay=3", contentLength := none }
      = "/demo/slow" :=
  (C6_endpoint_template_label _ _).2.1
    [{ path := "/api/info", matchesFull := fun _ => false }]
    { path := "/demo/slow", matchesFull := fun _ => true } [] rfl
    (by intro p hp; simp at hp; subst hp; rfl) rfl

/-- Records for other names survive `record_info` filtering; a second
filter for the name finds nothing among them. -/
theorem filter_eq_of_filter_ne (l : InfoStore) (n : String) :
    (l.filter (fun p => p.1 ≠ n)).filter (fun p => p.1 = n) = [] := by
  induction l with
  | nil => rfl
  | cons a l ih => by_cases h : a.1 = n <;> simp [List.filter_cons, h, ih]

/-- Filtering away a name twice is the same as filtering it once. -/
theorem filter_ne_idem (l : InfoStore) (n : String) :
    (l.filter (fun p => p.1 ≠ n)).filter (fun p => p.1 ≠ n)
      = l.filter (fun p => p.1 ≠ n) := by
  induction l with
  | nil => rfl
  | cons a l ih => by_cases h : a.1 = n <;> simp [List.filter_cons, h, ih]

/-- After `record_info`, the store holds exactly one record for the name:
the given mapping. -/
theorem filter_record_info (st : InfoStore) (n : String) (m : List (String × String)) :
    (record_info st n m).filter (fun p => p.1 = n) = [(n, m)] := by
  simp [record_info, List.filter_append, filter_eq_of_filter_ne]

/-- Repeating the same `record_info` call leaves the store unchanged. -/
theorem record_info_idem (st : InfoStore) (n : String) (m : List (String × String)) :
    record_info (record_info st n m) n m = record_info st n m := by
  simp [record_info, List.filter_append, filter_ne_idem]

/-- A fold of `record_info` calls leaves exactly the last mapping as the
single record for the name. -/
theorem recordInfoAll_getLast (name : String) (ms : List (List (String × String))) :
    ∀ (st : InfoStore) (m : List (String × String)), ms.getLast? = some m →
    (recordInfoAll st name ms).filter (fun p => p.1 = name) = [(name, m)] := by
  induction ms with
  | nil => intro st m h; simp at h
  | cons m0 ms' ih =>
    intro st m h
    cases ms' with
    | nil =>
      simp at h
      subst h
      simp [recordInfoAll, filter_record_info]
    | cons m1 ms'' =>
      rw [List.getLast?_cons_cons] at h
      simpa [recordInfoAll] using ih (record_info st name m0) m h

/-- C9: after any sequence of `record_info` calls for a name the store
holds exactly one info record for it, equal to the mapping of the most
recent call (last-write-wins); repeating the same call is an idempotent
overwrite; and the exposition output built from the store reflects the
latest value with a single series for the name. -/
theorem C9_record_info_last_write_wins (st : InfoStore) (name : String)
    (ms : List (List (String × String))) (m : List (String × String))
    (h : ms.getLast? = some m) :
    ((recordInfoAll st name ms).filter (fun p => p.1 = name) = [(name, m)])
    ∧ record_info (record_info st name m) name m = record_info st name m
    ∧ exportInfo (record_info st name m)
        = (st.filter (fun p => p.1 ≠ name)) ++ [(name, m)]
    ∧ exportInfo (record_info (record_info st name m) name m)
        = exportInfo (record_info st name m) := by
  refine ⟨recordInfoAll_getLast name ms st m h, record_info_idem st name m, rfl, ?_⟩
  show record_info (record_info st name m) name m = record_info st name m
  exact record_info_idem st name m

/-- Witness for C9 at a concrete two-call history for `app_version`. -/
theorem C9_record_info_last_write_wins_witness :
    ([[("version", "0.2.0")], [("version", "0.2.1")]].getLast?
        = some [("version", "0.2.1")])
    ∧ (recordInfoAll [("other", [("k", "v")])] "app_version"
        [[("version", "0.2.0")], [("version", "0.2.1")]]).filter
          (fun p => p.1 = "app_version")
        = [("app_version", [("version", "0.2.1")])] :=
  ⟨by decide,
   (C9_record_info_last_write_wins [("other", [("k", "v")])] "app_version"
      [[("version", "0.2.0")], [("version", "0.2.1")]] [("version", "0.2.1")]
      (by decide)).1⟩

/-- Witness for C10 at the concrete draw 0. -/
theorem C10_default_error_rate_witness :
    error_endpoint defaultSettings none 0 =
      { status := 200, message := "Success", effectiveRate := 0, errorCounterInc := false }
    ∧ defaultSettings.ERROR_RATE = 0
    ∧ (∀ (s : Settings) (d : ℚ),
        (error_endpoint s none d).effectiveRate = s.ERROR_RATE) :=
  C10_default_error_rate 0 (by norm_num)

end SampleApi
